import Mathlib

/-!
Shallow embedding of the sentiment-analysis Spin component (src/src/lib.rs).

The program is a single HTTP request handler `perform_sentiment_analysis`:
it decodes the request body into `SentimentAnalysisRequest`, trims the
sentence, looks the trimmed sentence up in a key-value store, on a
retrieved value returns it as the cached sentiment, otherwise invokes a
text-generation model on a fixed prompt template, parses the first line of
the generated text into a `Sentiment`, best-effort caches a recognized
sentiment, and returns a 200 response.

External collaborators are modelled explicitly:
  - the key-value store (spin_sdk::key_value::Store) is a `KVStore` value
    carrying its entries and failure switches; `get` returns
    `Except err (Option value)` exactly as the SDK's
    `Store::get -> Result<Option<Vec<u8>>, Error>` (spec section 6:
    `get(key) -> Option<bytes> | Err`); values are modelled as strings
    (the store holds raw bytes; every value this program writes is UTF-8);
  - the generation model (spin_sdk::llm::infer_with_options with
    Llama2Chat and max_tokens = 8) is an oracle
    `model : String → Except String String` from the prompt to the
    generated text or an inference failure;
  - serde_json deserialization of the body is external, so a request body
    is modelled as absent, malformed, or already decoded;
  - the Spin router surfaces a handler `Err` as a plain 500 response
    (spin_sdk's IntoResponse impl for Result), and a panic traps the
    component so the program produces no response at all.

Rust string primitives used by the handler (str::trim, str::lines,
str::strip_prefix, str::replace) are re-implemented structurally over
`List Char` so that every definition evaluates inside the kernel.
-/

/-- Drops the longest leading run of whitespace characters from a list of
characters (helper for the embedding of Rust str::trim). -/
def dropLeadingWS : List Char → List Char
  | [] => []
  | c :: cs => if c.isWhitespace then dropLeadingWS cs else c :: cs

/-- Embeds Rust str::trim: removes leading and trailing whitespace from a
string (drop the leading run, reverse, drop the leading run of the
reversal, reverse back). -/
def rustTrim (s : String) : String :=
  ⟨(dropLeadingWS ((dropLeadingWS s.data).reverse)).reverse⟩

/-- Characters of a text up to (and excluding) the first newline
(helper for the embedding of str::lines().next()). -/
def firstLineChars : List Char → List Char
  | [] => []
  | c :: cs => if c = '\n' then [] else c :: firstLineChars cs

/-- Embeds inferencing_result.text.lines().next().unwrap_or_default()
(src/src/lib.rs lines 98-102): the first line of the generated text, with a
trailing carriage return stripped; the empty string when the text is empty
(lines() yields no item, Option::unwrap_or_default gives ""). -/
def rustFirstLine (text : String) : String :=
  let l := firstLineChars text.data
  ⟨if l.getLast? = some '\r' then l.dropLast else l⟩

/-- Embeds Rust str::strip_prefix on character lists: `some` of the
remainder when the second list starts with the first, `none` otherwise. -/
def stripPrefixChars : List Char → List Char → Option (List Char)
  | [], s => some s
  | _ :: _, [] => none
  | a :: ps, b :: ss => if a = b then stripPrefixChars ps ss else none

/-- Worker for the embedding of Rust str::replace: replaces every
non-overlapping occurrence of `pat` by `rep`, left to right. The fuel
argument is instantiated with the length of the text; every step consumes
at least one character of the text when `pat` is nonempty (the only way
this program calls it), so the fuel never runs out. -/
def replaceLoop (pat rep : List Char) : Nat → List Char → List Char
  | _, [] => []
  | 0, s => s
  | fuel + 1, c :: cs =>
    match stripPrefixChars pat (c :: cs) with
    | some rest => rep ++ replaceLoop pat rep fuel rest
    | none => c :: replaceLoop pat rep fuel cs

/-- Embeds Rust str::replace: `rustReplace s pat rep` replaces every
non-overlapping occurrence of `pat` in `s` by `rep`. -/
def rustReplace (s pat rep : String) : String :=
  ⟨replaceLoop pat.data rep.data s.data.length s.data⟩

/-- Embeds the PROMPT constant (src/src/lib.rs lines 23-41). The Rust
source is a raw string literal, so its leading backslash is a literal
character of the prompt. -/
def PROMPT : String :=
  "\\\n<<SYS>>\nYou are a bot that generates sentiment analysis responses. Respond with a single positive, negative, or neutral.\n<</SYS>>\n<INST>\nFollow the pattern of the following examples:\n\nUser: Hi, my name is Bob\nBot: neutral\n\nUser: I am so happy today\nBot: positive\n\nUser: I am so sad today\nBot: negative\n</INST>\n\nUser: {SENTENCE}\n"

/-- Embeds struct SentimentAnalysisRequest (src/src/lib.rs lines 13-16). -/
structure SentimentAnalysisRequest where
  sentence : String
deriving DecidableEq, Repr

/-- Embeds struct SentimentAnalysisResponse (src/src/lib.rs lines 18-21). -/
structure SentimentAnalysisResponse where
  sentiment : String
deriving DecidableEq, Repr

/-- Embeds enum Sentiment (src/src/lib.rs lines 146-151). -/
inductive Sentiment
  | Positive
  | Negative
  | Neutral
deriving DecidableEq, Repr

/-- Embeds Sentiment::as_str (src/src/lib.rs lines 153-161); Display and
ToString for Sentiment delegate to it. -/
def Sentiment.as_str : Sentiment → String
  | .Positive => "positive"
  | .Negative => "negative"
  | .Neutral => "neutral"

/-- Embeds the FromStr impl for Sentiment (src/src/lib.rs lines 175-187):
match the trimmed input against the three lowercase labels; on any other
input fail with a message carrying the original (untrimmed) input. The
Rust match on string literals is sequential equality testing. -/
def Sentiment.from_str (s : String) : Except String Sentiment :=
  let t := rustTrim s
  if t = "positive" then .ok .Positive
  else if t = "negative" then .ok .Negative
  else if t = "neutral" then .ok .Neutral
  else .error ("Invalid sentiment: " ++ s)

/-- Embeds .strip_prefix("Bot:").unwrap_or_default() applied to the first
line (src/src/lib.rs lines 103-104): the remainder after the marker when
the line starts with "Bot:", otherwise the empty string
(Option::unwrap_or_default on an Option of a string slice is ""). -/
def afterBotMarker (line : String) : String :=
  match stripPrefixChars "Bot:".data line.data with
  | some rest => ⟨rest⟩
  | none => ""

/-- Tests whether a line starts with the literal marker "Bot:" (the
condition distinguishing the two arms of strip_prefix). -/
def startsWithBotMarker (line : String) : Bool :=
  (stripPrefixChars "Bot:".data line.data).isSome

/-- Embeds the whole output-parsing chain of the handler
(src/src/lib.rs lines 98-105): first line of the generated text, marker
stripping with empty-string fallback, then Sentiment::from_str. -/
def parseSentimentOutput (text : String) : Except String Sentiment :=
  Sentiment.from_str (afterBotMarker (rustFirstLine text))

/-- Association-list lookup used to model the point read of the store. -/
def kvLookup : List (String × String) → String → Option String
  | [], _ => none
  | (k, v) :: rest, key => if k = key then some v else kvLookup rest key

/-- Models the spin_sdk key-value store collaborator: its current entries
plus switches for the three failure modes the handler can observe
(Store::open_default failing, a get failing, a set failing). -/
structure KVStore where
  entries : List (String × String)
  openFails : Bool
  getFails : Bool
  setFails : Bool
deriving DecidableEq, Repr

/-- Models Store::get, a point read returning Ok(None) when the key is
absent, Ok(Some value) when present, and Err when the backend fails
(spec section 6: get(key) -> Option<bytes> | Err; the SDK signature is
Result<Option<Vec<u8>>, Error>). -/
def KVStore.get (kv : KVStore) (key : String) : Except String (Option String) :=
  if kv.getFails then .error "key-value backend unavailable"
  else .ok (kvLookup kv.entries key)

/-- Models Store::set: Err on a backend failure, otherwise records the
entry (newest entry shadows older ones: last write wins). -/
def KVStore.set (kv : KVStore) (key value : String) :
    Except String Unit × KVStore :=
  if kv.setFails then (.error "key-value backend unavailable", kv)
  else (.ok (), { kv with entries := (key, value) :: kv.entries })

/-- Models the request body as delivered by the host: absent, present but
not deserializable by serde_json into the expected shape, or decoded.
The JSON deserialization itself is an external collaborator, so a present
body is modelled as already split into these two outcomes. -/
inductive RequestBody
  | absent
  | malformed (raw : String)
  | decoded (request : SentimentAnalysisRequest)
deriving DecidableEq, Repr

/-- Embeds body_json_to_map (src/src/lib.rs lines 137-144): bail with
"Request body is empty" when there is no body, propagate the serde_json
error for a malformed body, return the decoded request otherwise. -/
def body_json_to_map : RequestBody → Except String SentimentAnalysisRequest
  | .absent => .error "Request body is empty"
  | .malformed raw => .error ("invalid request JSON: " ++ raw)
  | .decoded request => .ok request

/-- Observable outcome of one handler run: a 200 success carrying the
response struct, a handler error (the Err of the Rust Result, surfaced by
the router), or a trap (a Rust panic aborting the component). -/
inductive HandlerOutcome
  | success (resp : SentimentAnalysisResponse)
  | failure (msg : String)
  | trap (msg : String)
deriving DecidableEq, Repr

/-- Trace of one handler run: the outcome together with the key passed to
Store::get (none when get was never reached), the prompt passed to the
model (none when the model was never invoked), and the key/value passed
to Store::set (none when no cache write was attempted). -/
structure HandlerTrace where
  outcome : HandlerOutcome
  getKey : Option String
  modelPrompt : Option String
  setCall : Option (String × String)
deriving DecidableEq, Repr

/-- Embeds perform_sentiment_analysis (src/src/lib.rs lines 56-124),
returning the run's trace and the resulting store. Control flow follows
the source line by line:
  - body_json_to_map with the ? operator (line 57): a decode error is
    returned as the handler's Err;
  - sentence := request.sentence.trim() (line 59);
  - Store::open_default with ? (line 63);
  - `if let Ok(sentiment) = kv.get(sentence)` (line 73): any Ok — also
    Ok(None) for an absent key — enters the cache-hit branch, where
    String::from_utf8(sentiment.unwrap())? is evaluated; unwrap of None
    panics, so an absent key traps; a present value is returned as the
    cached sentiment via send_ok_response(200, ..) (from_utf8 always
    succeeds in this model since values are strings);
  - only an Err from get falls through to inference (lines 83-94):
    infer_with_options on PROMPT.replace("\x7bSENTENCE\x7d", sentence)
    with the ? operator, so a model failure is the handler's Err;
  - the parse chain (lines 98-105) and, on a recognized sentiment, a
    best-effort Store::set whose result is discarded (`let _ =`,
    lines 108-111);
  - the 200 response carries sentiment.as_str for a recognized label and
    "" otherwise (lines 114-123). -/
def perform_sentiment_analysis (kv : KVStore)
    (model : String → Except String String) (body : RequestBody) :
    HandlerTrace × KVStore :=
  match body_json_to_map body with
  | .error e => (⟨.failure e, none, none, none⟩, kv)
  | .ok request =>
    let sentence := rustTrim request.sentence
    if kv.openFails then
      (⟨.failure "error opening default store", none, none, none⟩, kv)
    else
      match kv.get sentence with
      | .ok (some cached) =>
        (⟨.success ⟨cached⟩, some sentence, none, none⟩, kv)
      | .ok none =>
        (⟨.trap "called Option::unwrap on a None value", some sentence, none, none⟩, kv)
      | .error _ =>
        let prompt := rustReplace PROMPT "{SENTENCE}" sentence
        match model prompt with
        | .error e =>
          (⟨.failure e, some sentence, some prompt, none⟩, kv)
        | .ok text =>
          match parseSentimentOutput text with
          | .ok s =>
            (⟨.success ⟨s.as_str⟩, some sentence, some prompt,
              some (sentence, s.as_str)⟩, (kv.set sentence s.as_str).2)
          | .error _ =>
            (⟨.success ⟨""⟩, some sentence, some prompt, none⟩, kv)

/-- An HTTP response as status plus body. -/
structure HttpResponse where
  status : Nat
  body : String
deriving DecidableEq, Repr

/-- Embeds serde_json::to_string of a SentimentAnalysisResponse as used by
send_ok_response; the single string field is emitted verbatim (none of the
values this program emits needs JSON escaping). -/
def jsonEncode (resp : SentimentAnalysisResponse) : String :=
  "\x7b\"sentiment\":\"" ++ resp.sentiment ++ "\"\x7d"

/-- Embeds send_ok_response (src/src/lib.rs lines 132-135): serialize the
response struct and attach the status code (serialization of this struct
cannot fail). -/
def send_ok_response (code : Nat) (resp : SentimentAnalysisResponse) :
    HttpResponse :=
  ⟨code, jsonEncode resp⟩

/-- Models how the hosting Spin router surfaces a handler outcome
(spin_sdk::http, outside this repository): an Ok response passes through
(the handler builds it with send_ok_response at status 200); a handler Err
is converted by the SDK's IntoResponse impl for Result into a plain 500
response; a panic traps the component, so the program itself produces no
response. -/
def dispatchOutcome : HandlerOutcome → Option HttpResponse
  | .success resp => some (send_ok_response 200 resp)
  | .failure _ => some ⟨500, ""⟩
  | .trap _ => none

/-- A 4xx-class (client-error) HTTP status. -/
def isClientError (status : Nat) : Prop := 400 ≤ status ∧ status ≤ 499

/-- A 5xx-class (server-error) HTTP status. -/
def isServerError (status : Nat) : Prop := 500 ≤ status ∧ status ≤ 599

instance (status : Nat) : Decidable (isClientError status) :=
  inferInstanceAs (Decidable (400 ≤ status ∧ status ≤ 499))

instance (status : Nat) : Decidable (isServerError status) :=
  inferInstanceAs (Decidable (500 ≤ status ∧ status ≤ 599))

/-- Two sequential runs of the handler on the same request against the
same store: the second run starts from the store the first run left. -/
def runTwice (kv : KVStore) (model : String → Except String String)
    (body : RequestBody) : HandlerTrace × HandlerTrace × KVStore :=
  let r1 := perform_sentiment_analysis kv model body
  let r2 := perform_sentiment_analysis r1.2 model body
  (r1.1, r2.1, r2.2)

/-- Decidable equality of Except values, so that concrete handler runs can
be settled by decide. -/
instance {ε α : Type} [DecidableEq ε] [DecidableEq α] :
    DecidableEq (Except ε α)
  | .error a, .error b =>
    if h : a = b then .isTrue (by rw [h])
    else .isFalse (fun hc => h (Except.error.inj hc))
  | .error _, .ok _ => .isFalse (fun hc => Except.noConfusion hc)
  | .ok _, .error _ => .isFalse (fun hc => Except.noConfusion hc)
  | .ok a, .ok b =>
    if h : a = b then .isTrue (by rw [h])
    else .isFalse (fun hc => h (Except.ok.inj hc))

/-- Round-trip of the canonical string form: as_str of every Sentiment
parses back to that Sentiment. -/
lemma from_str_as_str (s : Sentiment) :
    Sentiment.from_str s.as_str = .ok s := by
  cases s <;> decide

/-- C1. Claim: every cache lookup that fails to retrieve a stored value —
the key absent or the backend read failing — proceeds to the Classifier
and never surfaces the failure as a fatal error. Code evaluation at the
failing input: against a healthy empty store (key absent, backend
available, so Store::get returns Ok(None)), the handler takes the
cache-hit branch and traps on Option::unwrap of None; the classifier is
never invoked and no response is produced. -/
theorem c1_absent_key_traps :
    (perform_sentiment_analysis ⟨[], false, false, false⟩
        (fun _ => .ok "Bot: positive") (.decoded ⟨"I am so happy today"⟩)).1
      = ⟨.trap "called Option::unwrap on a None value",
          some "I am so happy today", none, none⟩
    ∧ dispatchOutcome
        (HandlerOutcome.trap "called Option::unwrap on a None value") = none := by
  decide

/-- C2. Claim: handling the same sentence twice against the same store
yields a cache hit on the second call, the model invoked only once, and
identical sentiment strings. Code evaluation at the failing input: with a
healthy empty store and a model that would answer "Bot: positive", both
runs trap on Option::unwrap of None before any inference (the first run
writes nothing, so the second misses again); the model is invoked zero
times, there is no cache hit and no response is returned by either run. -/
theorem c2_memoization_broken :
    runTwice ⟨[], false, false, false⟩ (fun _ => .ok "Bot: positive")
        (.decoded ⟨"I am so happy today"⟩)
      = (⟨.trap "called Option::unwrap on a None value",
            some "I am so happy today", none, none⟩,
         ⟨.trap "called Option::unwrap on a None value",
            some "I am so happy today", none, none⟩,
         ⟨[], false, false, false⟩) := by
  decide

/-- C3 counterexample. The generated output "positive" has a first line
that does not start with "Bot:"; the claim says the classifier then parses
the unstripped first line itself, which would yield Positive, but the code
feeds the empty string to the parser (strip_prefix ... unwrap_or_default)
and fails, so the first line is discarded. -/
theorem c3_unstripped_line_refuted :
    startsWithBotMarker (rustFirstLine "positive") = false
    ∧ Sentiment.from_str (rustFirstLine "positive") = .ok .Positive
    ∧ parseSentimentOutput "positive" = .error "Invalid sentiment: "
    ∧ parseSentimentOutput "positive"
        ≠ Sentiment.from_str (rustFirstLine "positive") := by
  decide

/-- C3 amended: for every generated model output whose first line does not
start with the literal marker "Bot:", the Classifier discards that line
and parses the empty string (the unwrap_or_default fallback of
strip_prefix), so parsing always fails with the unrecognized-label
error. -/
theorem c3_markerless_line_discarded (text : String)
    (h : startsWithBotMarker (rustFirstLine text) = false) :
    afterBotMarker (rustFirstLine text) = ""
    ∧ parseSentimentOutput text = .error "Invalid sentiment: " := by
  have hn : stripPrefixChars "Bot:".data (rustFirstLine text).data = none := by
    cases hso : stripPrefixChars "Bot:".data (rustFirstLine text).data with
    | none => rfl
    | some r => simp [startsWithBotMarker, hso] at h
  have ha : afterBotMarker (rustFirstLine text) = "" := by
    rw [afterBotMarker, hn]
  refine ⟨ha, ?_⟩
  rw [parseSentimentOutput, ha]
  decide

/-- Witness for the amended C3 at the concrete output "positive". -/
theorem c3_markerless_line_discarded_witness :
    startsWithBotMarker (rustFirstLine "positive") = false
    ∧ (afterBotMarker (rustFirstLine "positive") = ""
        ∧ parseSentimentOutput "positive" = .error "Invalid sentiment: ") :=
  ⟨by decide, c3_markerless_line_discarded "positive" (by decide)⟩

/-- C4: model output whose first line is exactly "Bot: positive" parses to
Positive, "Bot: negative" to Negative, "Bot: neutral" to Neutral (prefix
stripped, whitespace trimmed, case-sensitive match against the lowercase
labels), and Sentiment::from_str rejects every input whose trimmed form is
not one of the three labels, with an error carrying the offending text. -/
theorem c4_label_parsing :
    parseSentimentOutput "Bot: positive" = .ok .Positive
    ∧ parseSentimentOutput "Bot: negative" = .ok .Negative
    ∧ parseSentimentOutput "Bot: neutral" = .ok .Neutral
    ∧ ∀ s : String, rustTrim s ≠ "positive" → rustTrim s ≠ "negative" →
        rustTrim s ≠ "neutral" →
        Sentiment.from_str s = .error ("Invalid sentiment: " ++ s) := by
  refine ⟨by decide, by decide, by decide, ?_⟩
  intro s h1 h2 h3
  simp [Sentiment.from_str, h1, h2, h3]

/-- Witness for C4 at the differently-cased input "Positive". -/
theorem c4_label_parsing_witness :
    (rustTrim "Positive" ≠ "positive" ∧ rustTrim "Positive" ≠ "negative"
      ∧ rustTrim "Positive" ≠ "neutral")
    ∧ Sentiment.from_str "Positive"
        = .error ("Invalid sentiment: " ++ "Positive") :=
  ⟨⟨by decide, by decide, by decide⟩,
    c4_label_parsing.2.2.2 "Positive" (by decide) (by decide) (by decide)⟩

/-- C5: whenever the model invocation succeeds but its output does not
parse to a recognized label, the handler still returns the 200 success
response whose sentiment field is the empty string, no cache write is
attempted, and the store is unchanged. (Reaching the model requires the
preceding lookup to have failed on the backend, per the cache-hit branch
of the code.) -/
theorem c5_unparsable_output_success (kv : KVStore)
    (model : String → Except String String)
    (request : SentimentAnalysisRequest) (text e : String)
    (hopen : kv.openFails = false) (hget : kv.getFails = true)
    (hmodel : model (rustReplace PROMPT "{SENTENCE}" (rustTrim request.sentence))
        = .ok text)
    (hparse : parseSentimentOutput text = .error e) :
    perform_sentiment_analysis kv model (.decoded request)
      = (⟨.success ⟨""⟩, some (rustTrim request.sentence),
          some (rustReplace PROMPT "{SENTENCE}" (rustTrim request.sentence)),
          none⟩, kv)
    ∧ dispatchOutcome (HandlerOutcome.success ⟨""⟩)
        = some (send_ok_response 200 ⟨""⟩) := by
  refine ⟨?_, rfl⟩
  simp [perform_sentiment_analysis, body_json_to_map, KVStore.get,
    hopen, hget, hmodel, hparse]

/-- Witness for C5: a store whose reads fail and a model answering
"Bot: somewhat positive-ish" yield the 200 response with an empty
sentiment and an unchanged store. -/
theorem c5_unparsable_output_success_witness :
    (⟨[], false, true, false⟩ : KVStore).openFails = false
    ∧ (⟨[], false, true, false⟩ : KVStore).getFails = true
    ∧ (fun _ : String => Except.ok (ε := String) "Bot: somewhat positive-ish")
        (rustReplace PROMPT "{SENTENCE}" (rustTrim "I feel fine"))
        = .ok "Bot: somewhat positive-ish"
    ∧ parseSentimentOutput "Bot: somewhat positive-ish"
        = .error ("Invalid sentiment: " ++ " somewhat positive-ish")
    ∧ (perform_sentiment_analysis ⟨[], false, true, false⟩
          (fun _ => Except.ok "Bot: somewhat positive-ish")
          (.decoded ⟨"I feel fine"⟩)
        = (⟨.success ⟨""⟩, some (rustTrim "I feel fine"),
            some (rustReplace PROMPT "{SENTENCE}" (rustTrim "I feel fine")),
            none⟩, ⟨[], false, true, false⟩)
        ∧ dispatchOutcome (HandlerOutcome.success ⟨""⟩)
            = some (send_ok_response 200 ⟨""⟩)) :=
  ⟨rfl, rfl, rfl, by decide,
    c5_unparsable_output_success ⟨[], false, true, false⟩
      (fun _ => Except.ok "Bot: somewhat positive-ish") ⟨"I feel fine"⟩
      "Bot: somewhat positive-ish" ("Invalid sentiment: " ++ " somewhat positive-ish")
      rfl rfl rfl (by decide)⟩

/-- C6: when classification succeeds, the result of the best-effort cache
set is discarded, so the already-computed sentiment is returned in the 200
response regardless of the store outcome — in particular also when the
store's writes fail; a write is attempted with the computed sentiment. -/
theorem c6_set_failure_swallowed (kv : KVStore)
    (model : String → Except String String)
    (request : SentimentAnalysisRequest) (text : String) (s : Sentiment)
    (hopen : kv.openFails = false) (hget : kv.getFails = true)
    (hmodel : model (rustReplace PROMPT "{SENTENCE}" (rustTrim request.sentence))
        = .ok text)
    (hparse : parseSentimentOutput text = .ok s) :
    (perform_sentiment_analysis kv model (.decoded request)).1.outcome
        = .success ⟨s.as_str⟩
    ∧ (perform_sentiment_analysis { kv with setFails := true } model
          (.decoded request)).1.outcome = .success ⟨s.as_str⟩
    ∧ (perform_sentiment_analysis kv model (.decoded request)).1.setCall
        = some (rustTrim request.sentence, s.as_str)
    ∧ dispatchOutcome (HandlerOutcome.success ⟨s.as_str⟩)
        = some (send_ok_response 200 ⟨s.as_str⟩) := by
  refine ⟨?_, ?_, ?_, rfl⟩ <;>
    simp [perform_sentiment_analysis, body_json_to_map, KVStore.get,
      hopen, hget, hmodel, hparse]

/-- Witness for C6: with failing writes the sentiment "positive" is still
returned in the 200 response. -/
theorem c6_set_failure_swallowed_witness :
    (⟨[], false, true, true⟩ : KVStore).openFails = false
    ∧ (⟨[], false, true, true⟩ : KVStore).getFails = true
    ∧ (fun _ : String => Except.ok (ε := String) "Bot: positive")
        (rustReplace PROMPT "{SENTENCE}" (rustTrim "I am so happy today"))
        = .ok "Bot: positive"
    ∧ parseSentimentOutput "Bot: positive" = .ok .Positive
    ∧ ((perform_sentiment_analysis ⟨[], false, true, true⟩
          (fun _ => Except.ok "Bot: positive")
          (.decoded ⟨"I am so happy today"⟩)).1.outcome
        = .success ⟨Sentiment.Positive.as_str⟩
      ∧ (perform_sentiment_analysis
            { (⟨[], false, true, true⟩ : KVStore) with setFails := true }
            (fun _ => Except.ok "Bot: positive")
            (.decoded ⟨"I am so happy today"⟩)).1.outcome
          = .success ⟨Sentiment.Positive.as_str⟩
      ∧ (perform_sentiment_analysis ⟨[], false, true, true⟩
            (fun _ => Except.ok "Bot: positive")
            (.decoded ⟨"I am so happy today"⟩)).1.setCall
          = some (rustTrim "I am so happy today", Sentiment.Positive.as_str)
      ∧ dispatchOutcome (HandlerOutcome.success ⟨Sentiment.Positive.as_str⟩)
          = some (send_ok_response 200 ⟨Sentiment.Positive.as_str⟩)) :=
  ⟨rfl, rfl, rfl, by decide,
    c6_set_failure_swallowed ⟨[], false, true, true⟩
      (fun _ => Except.ok "Bot: positive") ⟨"I am so happy today"⟩
      "Bot: positive" .Positive rfl rfl rfl (by decide)⟩

/-- C7: the sentence is trimmed once at pipeline entry and that identical
trimmed string is the cache-lookup key, the string substituted into the
prompt template, and the cache-store key; no step re-derives the key. -/
theorem c7_trim_once (kv : KVStore) (model : String → Except String String)
    (request : SentimentAnalysisRequest) (hopen : kv.openFails = false) :
    (perform_sentiment_analysis kv model (.decoded request)).1.getKey
        = some (rustTrim request.sentence)
    ∧ ((perform_sentiment_analysis kv model (.decoded request)).1.modelPrompt
          = none
        ∨ (perform_sentiment_analysis kv model (.decoded request)).1.modelPrompt
          = some (rustReplace PROMPT "{SENTENCE}" (rustTrim request.sentence)))
    ∧ ((perform_sentiment_analysis kv model (.decoded request)).1.setCall = none
        ∨ ∃ v, (perform_sentiment_analysis kv model (.decoded request)).1.setCall
          = some (rustTrim request.sentence, v)) := by
  simp only [perform_sentiment_analysis, body_json_to_map, hopen,
    Bool.false_eq_true, if_false]
  cases hg : kv.get (rustTrim request.sentence) with
  | ok found =>
    cases found with
    | some cached => simp
    | none => simp
  | error e =>
    cases hm : model (rustReplace PROMPT "{SENTENCE}" (rustTrim request.sentence)) with
    | error e2 => simp
    | ok text =>
      cases hp : parseSentimentOutput text with
      | ok s => simp [hp]
      | error e3 => simp [hp]

/-- Witness for C7: against a healthy empty store, the recorded lookup
key for the sentence "  hi  " is its trimmed form "hi". -/
theorem c7_trim_once_witness :
    (⟨[], false, false, false⟩ : KVStore).openFails = false
    ∧ ((perform_sentiment_analysis ⟨[], false, false, false⟩
          (fun _ => Except.ok "Bot: positive") (.decoded ⟨"  hi  "⟩)).1.getKey
        = some (rustTrim "  hi  ")
      ∧ ((perform_sentiment_analysis ⟨[], false, false, false⟩
            (fun _ => Except.ok "Bot: positive") (.decoded ⟨"  hi  "⟩)).1.modelPrompt
            = none
          ∨ (perform_sentiment_analysis ⟨[], false, false, false⟩
              (fun _ => Except.ok "Bot: positive") (.decoded ⟨"  hi  "⟩)).1.modelPrompt
            = some (rustReplace PROMPT "{SENTENCE}" (rustTrim "  hi  ")))
      ∧ ((perform_sentiment_analysis ⟨[], false, false, false⟩
            (fun _ => Except.ok "Bot: positive") (.decoded ⟨"  hi  "⟩)).1.setCall
            = none
          ∨ ∃ v, (perform_sentiment_analysis ⟨[], false, false, false⟩
              (fun _ => Except.ok "Bot: positive") (.decoded ⟨"  hi  "⟩)).1.setCall
            = some (rustTrim "  hi  ", v))) :=
  ⟨rfl, c7_trim_once ⟨[], false, false, false⟩
    (fun _ => Except.ok "Bot: positive") ⟨"  hi  "⟩ rfl⟩

/-- C8 counterexample: for a request with an absent body the handler fails
and the model is never invoked, but the surfaced status is 500 — a
server-error — not a 4xx-class client-error status as the claim states. -/
theorem c8_status_class_refuted :
    (perform_sentiment_analysis ⟨[], false, false, false⟩
        (fun _ => Except.ok "Bot: positive") .absent).1
      = ⟨.failure "Request body is empty", none, none, none⟩
    ∧ dispatchOutcome (HandlerOutcome.failure "Request body is empty")
      = some ⟨500, ""⟩
    ∧ ¬ isClientError 500
    ∧ isServerError 500 := by
  refine ⟨by decide, rfl, ?_, by decide⟩
  intro h
  exact absurd h.2 (by decide)

/-- C8 amended: for every request whose body is absent or malformed, the
handler fails — the hosting router surfaces the error as a plain 500
response, the same server-error status as a model failure, rather than a
4xx-class status — and the model is never invoked. -/
theorem c8_bad_body_fails_no_model (kv : KVStore)
    (model : String → Except String String) (body : RequestBody)
    (h : ∀ request, body ≠ .decoded request) :
    (∃ msg, (perform_sentiment_analysis kv model body).1.outcome = .failure msg
      ∧ dispatchOutcome (.failure msg) = some ⟨500, ""⟩)
    ∧ (perform_sentiment_analysis kv model body).1.modelPrompt = none := by
  cases body with
  | absent => exact ⟨⟨"Request body is empty", rfl, rfl⟩, rfl⟩
  | malformed raw => exact ⟨⟨"invalid request JSON: " ++ raw, rfl, rfl⟩, rfl⟩
  | decoded request => exact absurd rfl (h request)

/-- Witness for the amended C8 at the absent body. -/
theorem c8_bad_body_fails_no_model_witness :
    (∀ request, RequestBody.absent ≠ RequestBody.decoded request)
    ∧ ((∃ msg, (perform_sentiment_analysis ⟨[], false, false, false⟩
            (fun _ => Except.ok "Bot: positive") RequestBody.absent).1.outcome
              = .failure msg
          ∧ dispatchOutcome (.failure msg) = some ⟨500, ""⟩)
        ∧ (perform_sentiment_analysis ⟨[], false, false, false⟩
            (fun _ => Except.ok "Bot: positive") RequestBody.absent).1.modelPrompt
          = none) :=
  ⟨fun _ h => RequestBody.noConfusion h,
    c8_bad_body_fails_no_model ⟨[], false, false, false⟩
      (fun _ => Except.ok "Bot: positive") RequestBody.absent
      (fun _ h => RequestBody.noConfusion h)⟩

/-- C9: when the model invocation itself fails, the handler returns the
failed response — surfaced by the router as 500, a 5xx-class server
error — with the model invoked exactly once (the trace records the single
prompt; the source has a single non-looping inference call), no cache
write attempted, and the store unchanged beyond the already-performed miss
lookup. -/
theorem c9_inference_failure (kv : KVStore)
    (model : String → Except String String)
    (request : SentimentAnalysisRequest) (e : String)
    (hopen : kv.openFails = false) (hget : kv.getFails = true)
    (hmodel : model (rustReplace PROMPT "{SENTENCE}" (rustTrim request.sentence))
        = .error e) :
    perform_sentiment_analysis kv model (.decoded request)
      = (⟨.failure e, some (rustTrim request.sentence),
          some (rustReplace PROMPT "{SENTENCE}" (rustTrim request.sentence)),
          none⟩, kv)
    ∧ dispatchOutcome (HandlerOutcome.failure e) = some ⟨500, ""⟩
    ∧ isServerError 500 := by
  refine ⟨?_, rfl, by decide⟩
  simp [perform_sentiment_analysis, body_json_to_map, KVStore.get,
    hopen, hget, hmodel]

/-- Witness for C9: a failing model invocation on "hello" yields the
failed response with no cache write and an unchanged store. -/
theorem c9_inference_failure_witness :
    (⟨[], false, true, false⟩ : KVStore).openFails = false
    ∧ (⟨[], false, true, false⟩ : KVStore).getFails = true
    ∧ (fun _ : String => Except.error (α := String) "inference failed")
        (rustReplace PROMPT "{SENTENCE}" (rustTrim "hello"))
        = .error "inference failed"
    ∧ (perform_sentiment_analysis ⟨[], false, true, false⟩
          (fun _ => Except.error "inference failed") (.decoded ⟨"hello"⟩)
        = (⟨.failure "inference failed", some (rustTrim "hello"),
            some (rustReplace PROMPT "{SENTENCE}" (rustTrim "hello")),
            none⟩, ⟨[], false, true, false⟩)
      ∧ dispatchOutcome (HandlerOutcome.failure "inference failed")
          = some ⟨500, ""⟩
      ∧ isServerError 500) :=
  ⟨rfl, rfl, rfl,
    c9_inference_failure ⟨[], false, true, false⟩
      (fun _ => Except.error "inference failed") ⟨"hello"⟩
      "inference failed" rfl rfl rfl⟩

/-- C10: as_str/from_str round-trips for every Sentiment variant, and
every value this handler ever passes to the cache store is the canonical
string of some Sentiment and hence itself parses back to that Sentiment. -/
theorem c10_cache_values_roundtrip :
    (∀ s : Sentiment, Sentiment.from_str s.as_str = .ok s)
    ∧ (∀ (kv : KVStore) (model : String → Except String String)
          (body : RequestBody) (k v : String),
        (perform_sentiment_analysis kv model body).1.setCall = some (k, v) →
        ∃ s : Sentiment, v = s.as_str ∧ Sentiment.from_str v = .ok s) := by
  refine ⟨from_str_as_str, ?_⟩
  intro kv model body k v h
  cases body with
  | absent => simp [perform_sentiment_analysis, body_json_to_map] at h
  | malformed raw => simp [perform_sentiment_analysis, body_json_to_map] at h
  | decoded request =>
    simp only [perform_sentiment_analysis, body_json_to_map] at h
    by_cases ho : kv.openFails = true
    · rw [if_pos ho] at h
      simp at h
    · rw [if_neg ho] at h
      cases hg : kv.get (rustTrim request.sentence) with
      | ok found =>
        simp only [hg] at h
        cases found with
        | some cached => simp at h
        | none => simp at h
      | error e =>
        simp only [hg] at h
        cases hm : model (rustReplace PROMPT "{SENTENCE}" (rustTrim request.sentence)) with
        | error e2 => simp [hm] at h
        | ok text =>
          simp only [hm] at h
          cases hp : parseSentimentOutput text with
          | ok s =>
            simp only [hp, Option.some.injEq, Prod.mk.injEq] at h
            exact ⟨s, h.2.symm, h.2 ▸ from_str_as_str s⟩
          | error e3 => simp [hp] at h

/-- Witness for C10: a run that reaches the cache write stores the value
"positive", which parses back to Positive. -/
theorem c10_cache_values_roundtrip_witness :
    (perform_sentiment_analysis ⟨[], false, true, false⟩
        (fun _ => Except.ok "Bot: positive") (.decoded ⟨"x"⟩)).1.setCall
      = some ("x", "positive")
    ∧ ∃ s : Sentiment, "positive" = s.as_str
        ∧ Sentiment.from_str "positive" = .ok s :=
  ⟨by decide,
    c10_cache_values_roundtrip.2 ⟨[], false, true, false⟩
      (fun _ => Except.ok "Bot: positive") (.decoded ⟨"x"⟩) "x" "positive"
      (by decide)⟩
